import Mathlib

/-!
Shallow embedding of the spreadsheet-backed REST API routes
(department / employee / student CRUD, bus log, generator log,
file movement log).  Tables are modelled as lists of rows, a row being a
list of string cells; a cell read past the end of a row models the
JavaScript value undefined and is an Option that is none.
-/

namespace SheetsApi

/-- Truthiness of an optional string field, as JavaScript evaluates it in
a boolean context: undefined and the empty string are falsy, every other
string is truthy. -/
def falsy : Option String → Bool
  | none => true
  | some s => s == ""

/-- Embedding of the JavaScript expression a short-circuit-or b where a and
b are strings or undefined: the left value wins when it is truthy. -/
def jsOr (a b : Option String) : Option String :=
  if falsy a then b else a

/-- Reading property k of a JavaScript object built by a sequence of
assignments with string values, starting from an accumulated value acc:
a later assignment to the same key overwrites an earlier one. -/
def objGetFromStr (acc : Option String) (ps : List (String × String)) (k : String) :
    Option String :=
  ps.foldl (fun a p => if p.1 = k then some p.2 else a) acc

/-- Reading property k of the JavaScript object built by the assignments ps
(string values); the result none models undefined (property absent). -/
def jsObjGetStr (ps : List (String × String)) (k : String) : Option String :=
  objGetFromStr none ps k

/-- Reading property k of a JavaScript object whose assigned values may
themselves be undefined, starting from an accumulated value acc. -/
def objGetFromOpt (acc : Option String) (ps : List (String × Option String)) (k : String) :
    Option String :=
  ps.foldl (fun a p => if p.1 = k then p.2 else a) acc

/-- Reading property k of the JavaScript object built by the assignments ps
whose values may be undefined; none models an absent or undefined field. -/
def jsObjGetOpt (ps : List (String × Option String)) (k : String) : Option String :=
  objGetFromOpt none ps k

/-- Record construction used by the department and employee list routes:
headers.forEach((header, index) => rec[header] = row[index]).  A cell read
beyond the end of the row is undefined (none). -/
def recordOptAux (row : List String) : List String → Nat → List (String × Option String)
  | [], _ => []
  | h :: hs, i => (h, row[i]?) :: recordOptAux row hs (i + 1)

/-- Record built from a header row and a data row, cells possibly undefined
(department and employee list routes). -/
def recordOfRowOpt (headers row : List String) : List (String × Option String) :=
  recordOptAux row headers 0

/-- Record construction used by the student list routes:
headers.forEach((header, index) => rec[header] = row[index] or the empty
string), so a missing trailing cell becomes the empty string. -/
def recordFilledAux (row : List String) : List String → Nat → List (String × String)
  | [], _ => []
  | h :: hs, i => (h, (row[i]?).getD "") :: recordFilledAux row hs (i + 1)

/-- Record built from a header row and a data row with empty-string fill
(student list routes). -/
def recordOfRowFilled (headers row : List String) : List (String × String) :=
  recordFilledAux row headers 0

/-- Scan of the rows returned by reading column A, carrying the current
zero-based position: the source loop returns i + 1 on the first row whose
first cell strictly equals the id, and -1 after the loop. -/
def findRowIndexFrom (id : String) : List (List String) → Nat → Int
  | [], _ => -1
  | r :: rs, i => if r[0]? = some id then (i + 1 : Int) else findRowIndexFrom id rs (i + 1)

/-- findRowIndexById as defined in the department, employee and student
routes: scans column A of the whole sheet (header row included) and returns
the 1-based row index of the first match, or -1 when the id is absent. -/
def findRowIndexById (rows : List (List String)) (id : String) : Int :=
  findRowIndexFrom id rows 0

/-- Scan embedding JavaScript Array.prototype.indexOf over the header row,
carrying the current position; returns -1 when the name is absent. -/
def jsIndexOfFrom (k : String) : List String → Nat → Int
  | [], _ => -1
  | h :: t, i => if h = k then (i : Int) else jsIndexOfFrom k t (i + 1)

/-- headers.indexOf(name) as used by the filtered student list route. -/
def jsIndexOf (l : List String) (k : String) : Int :=
  jsIndexOfFrom k l 0

/-- Body of POST /api/departments/update/:departmentId; each field is a
string when supplied and none when absent from the request. -/
structure DeptUpdateBody where
  departmentName : Option String
  description : Option String
  location : Option String
  inChargeEmployeeId : Option String
  deriving DecidableEq

/-- The updatedRow array computed by the department update route: new value
when truthy, otherwise the existing cell; column A is rewritten with the
path id, CreatedAt (column 6, zero-based 5) is kept, UpdatedAt is set to
the current time. -/
def departmentsUpdatedRow (departmentId : String) (b : DeptUpdateBody)
    (existingData : List String) (now : String) : List (Option String) :=
  [ some departmentId,
    jsOr b.departmentName existingData[1]?,
    jsOr b.description existingData[2]?,
    jsOr b.location existingData[3]?,
    jsOr b.inChargeEmployeeId existingData[4]?,
    existingData[5]?,
    some now ]

/-- Body of POST /api/students/update/:studentId. -/
structure StudentUpdateBody where
  studentName : Option String
  rollNumber : Option String
  departmentId : Option String
  course : Option String
  yearOfStudy : Option String
  email : Option String
  phone : Option String
  deriving DecidableEq

/-- The updatedRow array computed by the student update route; CreatedAt is
column 9 (zero-based 8), UpdatedAt column 10. -/
def studentsUpdatedRow (studentId : String) (b : StudentUpdateBody)
    (existingData : List String) (now : String) : List (Option String) :=
  [ some studentId,
    jsOr b.studentName existingData[1]?,
    jsOr b.rollNumber existingData[2]?,
    jsOr b.departmentId existingData[3]?,
    jsOr b.course existingData[4]?,
    jsOr b.yearOfStudy existingData[5]?,
    jsOr b.email existingData[6]?,
    jsOr b.phone existingData[7]?,
    existingData[8]?,
    some now ]

/-- Writing a computed row over the stored row with a ranged values.update
call: a defined cell overwrites the stored cell, an undefined cell is
serialized as JSON null and skipped by the backend, keeping the stored
cell (empty when the stored row is shorter). -/
def applyRowUpdate : List String → List (Option String) → List String
  | _, [] => []
  | old, c :: cs =>
      (match c with
        | some s => s
        | none => old.headD "") :: applyRowUpdate (old.drop 1) cs

/-- POST /api/departments/update/:departmentId as a transformation of the
Departments sheet: find the row by id (404 when absent), read the stored
row over columns A to G, compute the merged row and write it back. -/
def departmentsUpdateHandler (table : List (List String)) (departmentId : String)
    (b : DeptUpdateBody) (now : String) : Nat × List (List String) :=
  let rowIndex := findRowIndexById table departmentId
  if rowIndex = -1 then (404, table)
  else
    let r := rowIndex.toNat - 1
    let fullRow := (table[r]?).getD []
    let existingData := fullRow.take 7
    let updatedRow := departmentsUpdatedRow departmentId b existingData now
    (200, table.set r (applyRowUpdate existingData updatedRow ++ fullRow.drop 7))

/-- POST /api/students/update/:studentId as a transformation of the
Students sheet (columns A to J). -/
def studentsUpdateHandler (table : List (List String)) (studentId : String)
    (b : StudentUpdateBody) (now : String) : Nat × List (List String) :=
  let rowIndex := findRowIndexById table studentId
  if rowIndex = -1 then (404, table)
  else
    let r := rowIndex.toNat - 1
    let fullRow := (table[r]?).getD []
    let existingData := fullRow.take 10
    let updatedRow := studentsUpdatedRow studentId b existingData now
    (200, table.set r (applyRowUpdate existingData updatedRow ++ fullRow.drop 10))

/-- GET /api/departments/list (the employee list route is identical code):
an empty sheet or a header-only sheet answers 200 with an empty data array;
otherwise each data row is zipped with the header into a record whose
missing trailing cells stay undefined. -/
def listDepartmentsHandler (rows : List (List String)) :
    Nat × List (List (String × Option String)) :=
  match rows with
  | [] => (200, [])
  | headers :: dataRows =>
      if dataRows.isEmpty then (200, [])
      else (200, dataRows.map (recordOfRowOpt headers))

/-- GET /api/students/list: like the department list but missing trailing
cells are filled with the empty string. -/
def listStudentsHandler (rows : List (List String)) :
    Nat × List (List (String × String)) :=
  match rows with
  | [] => (200, [])
  | headers :: dataRows =>
      if dataRows.isEmpty then (200, [])
      else (200, dataRows.map (recordOfRowFilled headers))

/-- GET /api/students/list/:departmentId: finds the DepartmentID column in
the header (500 when absent), keeps the data rows whose raw cell at that
column strictly equals the path parameter, and materializes the kept rows
as filled records. -/
def listStudentsByDeptHandler (rows : List (List String)) (departmentId : String) :
    Nat × List (List (String × String)) :=
  match rows with
  | [] => (200, [])
  | headers :: dataRows =>
      if dataRows.isEmpty then (200, [])
      else
        let departmentIdIndex := jsIndexOf headers "DepartmentID"
        if departmentIdIndex = -1 then (500, [])
        else
          (200,
            (dataRows.filter
              (fun row => decide (row[departmentIdIndex.toNat]? = some departmentId))).map
              (recordOfRowFilled headers))

/-- Remote side effect issued by a route handler, in issue order: a blob
upload to the drive folder, or a values.append of one row (cells may be
undefined, which the backend stores as empty). -/
inductive Effect where
  | upload : Effect
  | append : List (Option String) → Effect
  deriving DecidableEq

/-- Result of a successful drive upload: file id and public link. -/
structure DriveFile where
  id : String
  webViewLink : String
  deriving DecidableEq

/-- POST /api/buslog/start-trip: required-field and attachment validation
answers 400 with no remote call; a failed upload (modelled by a drive
result that is none, as uploadToGoogleDrive returns null on error) answers
500 after the upload attempt; otherwise one row is appended. -/
def startTrip (startingKm tripId : Option String) (filePresent : Bool)
    (driveResult : Option DriveFile) (now : String) : Nat × List Effect :=
  if falsy startingKm || falsy tripId then (400, [])
  else if !filePresent then (400, [])
  else
    match driveResult with
    | none => (500, [Effect.upload])
    | some d =>
        (201, [Effect.upload,
               Effect.append [some now, some "START", tripId, startingKm,
                              some d.webViewLink]])

/-- POST /api/generatorlog/start-run, same shape as startTrip. -/
def startRun (startingFuelLevel runId : Option String) (filePresent : Bool)
    (driveResult : Option DriveFile) (now : String) : Nat × List Effect :=
  if falsy startingFuelLevel || falsy runId then (400, [])
  else if !filePresent then (400, [])
  else
    match driveResult with
    | none => (500, [Effect.upload])
    | some d =>
        (201, [Effect.upload,
               Effect.append [some now, some "START", runId, startingFuelLevel,
                              some d.webViewLink]])

/-- Movements row appended by POST /api/filelog/register. -/
def registerMovementCells (ts fileId : String) (originatingDepartment createdBy : Option String) :
    List (Option String) :=
  [some ts, some fileId, some "REGISTERED", some "",
   originatingDepartment, createdBy, some "", some "", some "File created."]

/-- Movements row appended by POST /api/filelog/forward; the optional
workDone, workToBeDone and remarks fields pass through possibly undefined. -/
def forwardMovementCells (ts : String)
    (fileId fromDepartment toDepartment forwardedBy workDone workToBeDone remarks : Option String) :
    List (Option String) :=
  [some ts, fileId, some "FORWARDED", fromDepartment, toDepartment,
   forwardedBy, workDone, workToBeDone, remarks]

/-- Movements row appended by POST /api/filelog/receive. -/
def receiveMovementCells (ts : String)
    (fileId receivingDepartment receivedBy remarks : Option String) :
    List (Option String) :=
  [some ts, fileId, some "RECEIVED", some "", receivingDepartment,
   receivedBy, some "", some "", remarks]

/-- POST /api/filelog/register: validates the three required fields, then
uploads the QR image (generated locally from the id), then appends one
Files row and one Movements row. -/
def registerFile (fileName description originatingDepartment createdBy : Option String)
    (fileId : String) (driveResult : Option DriveFile) (now : String) : Nat × List Effect :=
  if falsy fileName || falsy originatingDepartment || falsy createdBy then (400, [])
  else
    match driveResult with
    | none => (500, [Effect.upload])
    | some d =>
        (201, [Effect.upload,
               Effect.append [some fileId, fileName, jsOr description (some ""),
                              originatingDepartment, createdBy, some now,
                              some d.webViewLink],
               Effect.append (registerMovementCells now fileId originatingDepartment createdBy)])

/-- POST /api/filelog/forward: required fields else 400; one Movements
append, 200.  The handler consults no other table, in particular not the
Files sheet. -/
def forwardFile
    (fileId fromDepartment toDepartment forwardedBy workDone workToBeDone remarks : Option String)
    (now : String) : Nat × List Effect :=
  if falsy fileId || falsy fromDepartment || falsy toDepartment || falsy forwardedBy then
    (400, [])
  else
    (200, [Effect.append
            (forwardMovementCells now fileId fromDepartment toDepartment forwardedBy
              workDone workToBeDone remarks)])

/-- POST /api/filelog/receive: required fields else 400; one Movements
append, 200; no existence check against the Files sheet. -/
def receiveFile (fileId receivingDepartment receivedBy remarks : Option String)
    (now : String) : Nat × List Effect :=
  if falsy fileId || falsy receivingDepartment || falsy receivedBy then (400, [])
  else
    (200, [Effect.append
            (receiveMovementCells now fileId receivingDepartment receivedBy remarks)])

/-- Storage of an appended row: an undefined cell is serialized as JSON
null and stored as an empty cell. -/
def storeRow (cells : List (Option String)) : List String :=
  cells.map (fun c => c.getD "")

/-- Header row of the Movements sheet.  The status route dereferences the
properties Timestamp, Action and ToDepartment of records built from this
header, and the appended rows fix the column order Timestamp, FileID,
Action, FromDepartment, ToDepartment, moved-by, WorkDone, WorkToBeDone,
Remarks, so these are the column names the sheet must carry. -/
def movementsHeader : List String :=
  ["Timestamp", "FileID", "Action", "FromDepartment", "ToDepartment",
   "MovedBy", "WorkDone", "WorkToBeDone", "Remarks"]

/-- Data returned by GET /api/filelog/status/:fileId on success. -/
structure FileStatus where
  currentStatus : Option String
  currentLocation : Option String
  lastUpdated : Option String
  history : List (List (String × Option String))
  deriving DecidableEq

/-- GET /api/filelog/status/:fileId: 404 (none) when the Movements sheet
has at most a header row or no data row whose second cell strictly equals
the id; otherwise the matching rows become the history in table order and
the last record supplies the current status, location and timestamp. -/
def statusHandler (rows : List (List String)) (fileId : String) : Option FileStatus :=
  match rows with
  | [] => none
  | headers :: dataRows =>
      if dataRows.isEmpty then none
      else
        let fileHistoryRows := dataRows.filter (fun row => decide (row[1]? = some fileId))
        let history := fileHistoryRows.map (recordOfRowOpt headers)
        match history.getLast? with
        | none => none
        | some latestStatus =>
            some { currentStatus := jsObjGetOpt latestStatus "Action",
                   currentLocation := jsObjGetOpt latestStatus "ToDepartment",
                   lastUpdated := jsObjGetOpt latestStatus "Timestamp",
                   history := history }

/-! Helper lemmas about the row scan. -/

theorem findRowIndexFrom_eq_neg_one (id : String) :
    ∀ (rows : List (List String)) (i : Nat),
      (findRowIndexFrom id rows i = -1 ↔ ∀ r ∈ rows, r[0]? ≠ some id) := by
  intro rows
  induction rows with
  | nil => intro i; simp [findRowIndexFrom]
  | cons r rs ih =>
      intro i
      by_cases h0 : r[0]? = some id
      · simp only [findRowIndexFrom, if_pos h0]
        constructor
        · intro h; omega
        · intro h; exact absurd h0 (h r (List.mem_cons_self r rs))
      · simp only [findRowIndexFrom, if_neg h0, ih (i + 1), List.mem_cons]
        constructor
        · rintro h r' (rfl | hr')
          · exact h0
          · exact h r' hr'
        · intro h r' hr'; exact h r' (Or.inr hr')

theorem findRowIndexFrom_first_match (id : String) :
    ∀ (rows : List (List String)) (i j : Nat),
      ((rows[j]?).getD [])[0]? = some id →
      (∀ (m : Nat), m < j → ((rows[m]?).getD [])[0]? ≠ some id) →
      findRowIndexFrom id rows i = ((i + j + 1 : Nat) : Int) := by
  intro rows
  induction rows with
  | nil => intro i j hmatch; simp at hmatch
  | cons r rs ih =>
      intro i j hmatch hfirst
      match j with
      | 0 =>
          simp only [List.getElem?_cons_zero, Option.getD_some] at hmatch
          simp [findRowIndexFrom, if_pos hmatch]
      | j' + 1 =>
          have h0 : r[0]? ≠ some id := by
            have := hfirst 0 (by omega)
            simpa using this
          simp only [List.getElem?_cons_succ] at hmatch
          simp only [findRowIndexFrom, if_neg h0]
          have := ih (i + 1) j' hmatch (by
            intro m hm
            have := hfirst (m + 1) (by omega)
            simpa using this)
          rw [this]
          congr 1
          omega

/-- C6: findRowIndexById scans column A top to bottom; it returns -1 exactly
when no row's first cell equals the key, and otherwise the 1-based index
(the header row counted as row 1) of the first row whose first cell equals
the key. -/
theorem spec_C6_findRowIndexById (rows : List (List String)) (id : String) :
    (findRowIndexById rows id = -1 ↔ ∀ r ∈ rows, r[0]? ≠ some id) ∧
    (∀ (j : Nat),
      ((rows[j]?).getD [])[0]? = some id →
      (∀ (m : Nat), m < j → ((rows[m]?).getD [])[0]? ≠ some id) →
      findRowIndexById rows id = (j : Int) + 1) := by
  refine ⟨findRowIndexFrom_eq_neg_one id rows 0, ?_⟩
  intro j hmatch hfirst
  rw [findRowIndexById, findRowIndexFrom_first_match id rows 0 j hmatch hfirst]
  push_cast
  ring

/-- Witness for spec_C6_findRowIndexById: in a sheet whose column A reads
a, k, k the key k is found at 1-based row 2, and a missing key yields -1. -/
theorem spec_C6_witness :
    findRowIndexById [["a"], ["k"], ["k", "x"]] "k" = (1 : Int) + 1 ∧
    findRowIndexById [["a"], ["k"], ["k", "x"]] "zz" = -1 := by
  constructor
  · exact (spec_C6_findRowIndexById [["a"], ["k"], ["k", "x"]] "k").2 1 (by decide)
      (by decide)
  · exact (spec_C6_findRowIndexById [["a"], ["k"], ["k", "x"]] "zz").1.mpr (by decide)

/-- C3: a merge-update on a key that occurs in no row's column A answers
404 and leaves the table exactly as it was, for the department and the
student update routes alike. -/
theorem spec_C3_update_absent_key (table : List (List String)) (key : String)
    (db : DeptUpdateBody) (sb : StudentUpdateBody) (now : String)
    (h : ∀ r ∈ table, r[0]? ≠ some key) :
    departmentsUpdateHandler table key db now = (404, table) ∧
    studentsUpdateHandler table key sb now = (404, table) := by
  have hfind : findRowIndexById table key = -1 :=
    (findRowIndexFrom_eq_neg_one key table 0).mpr h
  constructor
  · simp [departmentsUpdateHandler, hfind]
  · simp [studentsUpdateHandler, hfind]

/-- Witness for spec_C3_update_absent_key at a concrete two-row sheet and a
key that appears nowhere in column A. -/
theorem spec_C3_witness :
    departmentsUpdateHandler [["DepartmentID"], ["d1", "n"]] "nope"
        ⟨none, none, none, none⟩ "t" = (404, [["DepartmentID"], ["d1", "n"]]) ∧
    studentsUpdateHandler [["DepartmentID"], ["d1", "n"]] "nope"
        ⟨none, none, none, none, none, none, none⟩ "t" =
      (404, [["DepartmentID"], ["d1", "n"]]) :=
  spec_C3_update_absent_key [["DepartmentID"], ["d1", "n"]] "nope"
    ⟨none, none, none, none⟩ ⟨none, none, none, none, none, none, none⟩ "t" (by decide)

/-! Helper lemmas about the merge of one field. -/

theorem jsOr_truthy (s : String) (b : Option String) (h : s ≠ "") :
    jsOr (some s) b = some s := by
  simp [jsOr, falsy, h]

theorem jsOr_falsy (a b : Option String) (h : falsy a = true) :
    jsOr a b = b := by
  simp [jsOr, h]

/-- C1: the row written back by a merge-update.  For the department route
and the student route alike: every mergeable field takes the caller value
when that value is a non-empty string and keeps the existing cell when the
caller value is absent or empty; the identifier cell equals the stored
identifier (the handler rewrites the path id, which the row lookup matched
against column A); the creation-timestamp cell is copied unchanged; the
last cell is set to the current time. -/
theorem spec_C1_mergeUpdate (departmentId studentId now : String)
    (db : DeptUpdateBody) (sb : StudentUpdateBody) (exD exS : List String) :
    ((exD[0]? = some departmentId →
        (departmentsUpdatedRow departmentId db exD now)[0]? = some exD[0]?) ∧
      (∀ v, db.departmentName = some v → v ≠ "" →
        (departmentsUpdatedRow departmentId db exD now)[1]? = some (some v)) ∧
      (falsy db.departmentName = true →
        (departmentsUpdatedRow departmentId db exD now)[1]? = some exD[1]?) ∧
      (∀ v, db.description = some v → v ≠ "" →
        (departmentsUpdatedRow departmentId db exD now)[2]? = some (some v)) ∧
      (falsy db.description = true →
        (departmentsUpdatedRow departmentId db exD now)[2]? = some exD[2]?) ∧
      (∀ v, db.location = some v → v ≠ "" →
        (departmentsUpdatedRow departmentId db exD now)[3]? = some (some v)) ∧
      (falsy db.location = true →
        (departmentsUpdatedRow departmentId db exD now)[3]? = some exD[3]?) ∧
      (∀ v, db.inChargeEmployeeId = some v → v ≠ "" →
        (departmentsUpdatedRow departmentId db exD now)[4]? = some (some v)) ∧
      (falsy db.inChargeEmployeeId = true →
        (departmentsUpdatedRow departmentId db exD now)[4]? = some exD[4]?) ∧
      (departmentsUpdatedRow departmentId db exD now)[5]? = some exD[5]? ∧
      (departmentsUpdatedRow departmentId db exD now)[6]? = some (some now)) ∧
    ((exS[0]? = some studentId →
        (studentsUpdatedRow studentId sb exS now)[0]? = some exS[0]?) ∧
      (∀ v, sb.studentName = some v → v ≠ "" →
        (studentsUpdatedRow studentId sb exS now)[1]? = some (some v)) ∧
      (falsy sb.studentName = true →
        (studentsUpdatedRow studentId sb exS now)[1]? = some exS[1]?) ∧
      (∀ v, sb.rollNumber = some v → v ≠ "" →
        (studentsUpdatedRow studentId sb exS now)[2]? = some (some v)) ∧
      (falsy sb.rollNumber = true →
        (studentsUpdatedRow studentId sb exS now)[2]? = some exS[2]?) ∧
      (∀ v, sb.departmentId = some v → v ≠ "" →
        (studentsUpdatedRow studentId sb exS now)[3]? = some (some v)) ∧
      (falsy sb.departmentId = true →
        (studentsUpdatedRow studentId sb exS now)[3]? = some exS[3]?) ∧
      (∀ v, sb.course = some v → v ≠ "" →
        (studentsUpdatedRow studentId sb exS now)[4]? = some (some v)) ∧
      (falsy sb.course = true →
        (studentsUpdatedRow studentId sb exS now)[4]? = some exS[4]?) ∧
      (∀ v, sb.yearOfStudy = some v → v ≠ "" →
        (studentsUpdatedRow studentId sb exS now)[5]? = some (some v)) ∧
      (falsy sb.yearOfStudy = true →
        (studentsUpdatedRow studentId sb exS now)[5]? = some exS[5]?) ∧
      (∀ v, sb.email = some v → v ≠ "" →
        (studentsUpdatedRow studentId sb exS now)[6]? = some (some v)) ∧
      (falsy sb.email = true →
        (studentsUpdatedRow studentId sb exS now)[6]? = some exS[6]?) ∧
      (∀ v, sb.phone = some v → v ≠ "" →
        (studentsUpdatedRow studentId sb exS now)[7]? = some (some v)) ∧
      (falsy sb.phone = true →
        (studentsUpdatedRow studentId sb exS now)[7]? = some exS[7]?) ∧
      (studentsUpdatedRow studentId sb exS now)[8]? = some exS[8]? ∧
      (studentsUpdatedRow studentId sb exS now)[9]? = some (some now)) := by
  constructor
  · refine ⟨?_, ?_, ?_, ?_, ?_, ?_, ?_, ?_, ?_, ?_, ?_⟩
    · intro h0; simp [departmentsUpdatedRow, h0]
    · intro v hv hne; simp [departmentsUpdatedRow, hv, jsOr_truthy v _ hne]
    · intro hf; simp [departmentsUpdatedRow, jsOr_falsy _ _ hf]
    · intro v hv hne; simp [departmentsUpdatedRow, hv, jsOr_truthy v _ hne]
    · intro hf; simp [departmentsUpdatedRow, jsOr_falsy _ _ hf]
    · intro v hv hne; simp [departmentsUpdatedRow, hv, jsOr_truthy v _ hne]
    · intro hf; simp [departmentsUpdatedRow, jsOr_falsy _ _ hf]
    · intro v hv hne; simp [departmentsUpdatedRow, hv, jsOr_truthy v _ hne]
    · intro hf; simp [departmentsUpdatedRow, jsOr_falsy _ _ hf]
    · simp [departmentsUpdatedRow]
    · simp [departmentsUpdatedRow]
  · refine ⟨?_, ?_, ?_, ?_, ?_, ?_, ?_, ?_, ?_, ?_, ?_, ?_, ?_, ?_, ?_, ?_, ?_⟩
    · intro h0; simp [studentsUpdatedRow, h0]
    · intro v hv hne; simp [studentsUpdatedRow, hv, jsOr_truthy v _ hne]
    · intro hf; simp [studentsUpdatedRow, jsOr_falsy _ _ hf]
    · intro v hv hne; simp [studentsUpdatedRow, hv, jsOr_truthy v _ hne]
    · intro hf; simp [studentsUpdatedRow, jsOr_falsy _ _ hf]
    · intro v hv hne; simp [studentsUpdatedRow, hv, jsOr_truthy v _ hne]
    · intro hf; simp [studentsUpdatedRow, jsOr_falsy _ _ hf]
    · intro v hv hne; simp [studentsUpdatedRow, hv, jsOr_truthy v _ hne]
    · intro hf; simp [studentsUpdatedRow, jsOr_falsy _ _ hf]
    · intro v hv hne; simp [studentsUpdatedRow, hv, jsOr_truthy v _ hne]
    · intro hf; simp [studentsUpdatedRow, jsOr_falsy _ _ hf]
    · intro v hv hne; simp [studentsUpdatedRow, hv, jsOr_truthy v _ hne]
    · intro hf; simp [studentsUpdatedRow, jsOr_falsy _ _ hf]
    · intro v hv hne; simp [studentsUpdatedRow, hv, jsOr_truthy v _ hne]
    · intro hf; simp [studentsUpdatedRow, jsOr_falsy _ _ hf]
    · simp [studentsUpdatedRow]
    · simp [studentsUpdatedRow]

/-- Witness for spec_C1_mergeUpdate: a concrete department merge (name
supplied non-empty, description supplied empty, location absent, in-charge
supplied) and a concrete student merge (name supplied, roll number absent). -/
theorem spec_C1_witness :
    (departmentsUpdatedRow "d1" ⟨some "N", some "", none, some "E"⟩
        ["d1", "n0", "dsc0", "l0", "e0", "c0", "u0"] "t9")[0]? = some (some "d1") ∧
    (departmentsUpdatedRow "d1" ⟨some "N", some "", none, some "E"⟩
        ["d1", "n0", "dsc0", "l0", "e0", "c0", "u0"] "t9")[1]? = some (some "N") ∧
    (departmentsUpdatedRow "d1" ⟨some "N", some "", none, some "E"⟩
        ["d1", "n0", "dsc0", "l0", "e0", "c0", "u0"] "t9")[2]? = some (some "dsc0") ∧
    (departmentsUpdatedRow "d1" ⟨some "N", some "", none, some "E"⟩
        ["d1", "n0", "dsc0", "l0", "e0", "c0", "u0"] "t9")[3]? = some (some "l0") ∧
    (departmentsUpdatedRow "d1" ⟨some "N", some "", none, some "E"⟩
        ["d1", "n0", "dsc0", "l0", "e0", "c0", "u0"] "t9")[4]? = some (some "E") ∧
    (departmentsUpdatedRow "d1" ⟨some "N", some "", none, some "E"⟩
        ["d1", "n0", "dsc0", "l0", "e0", "c0", "u0"] "t9")[5]? = some (some "c0") ∧
    (departmentsUpdatedRow "d1" ⟨some "N", some "", none, some "E"⟩
        ["d1", "n0", "dsc0", "l0", "e0", "c0", "u0"] "t9")[6]? = some (some "t9") ∧
    (studentsUpdatedRow "s1" ⟨some "SN", none, some "", some "C", none, some "E2", none⟩
        ["s1", "a1", "a2", "a3", "a4", "a5", "a6", "a7", "c8", "u9"] "t9")[0]?
      = some (some "s1") ∧
    (studentsUpdatedRow "s1" ⟨some "SN", none, some "", some "C", none, some "E2", none⟩
        ["s1", "a1", "a2", "a3", "a4", "a5", "a6", "a7", "c8", "u9"] "t9")[1]?
      = some (some "SN") ∧
    (studentsUpdatedRow "s1" ⟨some "SN", none, some "", some "C", none, some "E2", none⟩
        ["s1", "a1", "a2", "a3", "a4", "a5", "a6", "a7", "c8", "u9"] "t9")[2]?
      = some (some "a2") ∧
    (studentsUpdatedRow "s1" ⟨some "SN", none, some "", some "C", none, some "E2", none⟩
        ["s1", "a1", "a2", "a3", "a4", "a5", "a6", "a7", "c8", "u9"] "t9")[8]?
      = some (some "c8") ∧
    (studentsUpdatedRow "s1" ⟨some "SN", none, some "", some "C", none, some "E2", none⟩
        ["s1", "a1", "a2", "a3", "a4", "a5", "a6", "a7", "c8", "u9"] "t9")[9]?
      = some (some "t9") := by
  have h := spec_C1_mergeUpdate "d1" "s1" "t9"
    ⟨some "N", some "", none, some "E"⟩
    ⟨some "SN", none, some "", some "C", none, some "E2", none⟩
    ["d1", "n0", "dsc0", "l0", "e0", "c0", "u0"]
    ["s1", "a1", "a2", "a3", "a4", "a5", "a6", "a7", "c8", "u9"]
  obtain ⟨⟨d0, d1a, d1b, d2a, d2b, d3a, d3b, d4a, d4b, d5, d6⟩,
    ⟨s0, s1a, s1b, s2a, s2b, s3a, s3b, s4a, s4b, s5a, s5b, s6a, s6b, s7a, s7b, s8, s9⟩⟩ := h
  exact ⟨d0 rfl, d1a "N" rfl (by decide), d2b rfl, d3b rfl,
    d4a "E" rfl (by decide), d5, d6,
    s0 rfl, s1a "SN" rfl (by decide), s2b rfl, s8, s9⟩

/-! Helper lemmas about record construction and object lookup. -/

theorem recordFilledAux_eq_map (row : List String) :
    ∀ (hs : List String) (i : Nat),
      recordFilledAux row hs i =
        (recordOptAux row hs i).map (fun p => (p.1, p.2.getD "")) := by
  intro hs
  induction hs with
  | nil => intro i; rfl
  | cons h t ih => intro i; simp [recordFilledAux, recordOptAux, ih]

theorem objGetFromStr_isSome_acc (k : String) :
    ∀ (ps : List (String × String)) (acc : Option String), acc.isSome = true →
      (objGetFromStr acc ps k).isSome = true := by
  intro ps
  induction ps with
  | nil => intro acc h; exact h
  | cons p t ih =>
      intro acc h
      rw [objGetFromStr, List.foldl_cons]
      by_cases hp : p.1 = k
      · exact ih _ (by simp [hp])
      · exact ih _ (by simp [hp, h])

theorem objGetFromStr_isSome_of_key (k : String) :
    ∀ (ps : List (String × String)) (acc : Option String),
      (∃ p ∈ ps, p.1 = k) → (objGetFromStr acc ps k).isSome = true := by
  intro ps
  induction ps with
  | nil => rintro acc ⟨p, hp, _⟩; simp at hp
  | cons q t ih =>
      rintro acc ⟨p, hp, hk⟩
      rw [objGetFromStr, List.foldl_cons]
      rcases List.mem_cons.mp hp with rfl | hp'
      · exact objGetFromStr_isSome_acc k t _ (by simp [hk])
      · exact ih _ ⟨p, hp', hk⟩

theorem recordFilledAux_keys (row : List String) :
    ∀ (hs : List String) (i : Nat), (recordFilledAux row hs i).map Prod.fst = hs := by
  intro hs
  induction hs with
  | nil => intro i; rfl
  | cons h t ih => intro i; simp [recordFilledAux, ih]

/-- C2 counterexample: in the department list route (identical code in the
employee list route) a data row shorter than the header yields a record
whose trailing field is undefined, not the empty string: field H2 of the
only record is undefined. -/
theorem spec_C2_counterexample :
    listDepartmentsHandler [["H1", "H2"], ["a"]] =
      (200, [[("H1", some "a"), ("H2", (none : Option String))]]) ∧
    jsObjGetOpt [("H1", some "a"), ("H2", (none : Option String))] "H2" = none := by
  constructor
  · rfl
  · rfl

/-- C2 amended: the student list route fills a missing trailing cell with
the empty string, so every header names a present string field; the
department and employee list routes build the same record except that a
missing trailing cell stays undefined (the filled record is the optional
record with undefined replaced by the empty string). -/
theorem spec_C2_amended :
    (∀ headers row, recordOfRowFilled headers row =
        (recordOfRowOpt headers row).map (fun p => (p.1, p.2.getD ""))) ∧
    (∀ headers row h, h ∈ headers →
        (jsObjGetStr (recordOfRowFilled headers row) h).isSome = true) := by
  constructor
  · intro headers row
    exact recordFilledAux_eq_map row headers 0
  · intro headers row h hmem
    apply objGetFromStr_isSome_of_key
    have hkeys := recordFilledAux_keys row headers 0
    rw [← hkeys] at hmem
    rcases List.mem_map.mp hmem with ⟨p, hp, hfst⟩
    exact ⟨p, hp, hfst⟩

/-- Witness for spec_C2_amended: with header A, B and the one-cell row x,
the student record still carries a string value for field B. -/
theorem spec_C2_witness :
    (jsObjGetStr (recordOfRowFilled ["A", "B"] ["x"]) "B").isSome = true :=
  spec_C2_amended.2 ["A", "B"] ["x"] "B" (by decide)

/-- C10: an empty sheet and a header-only sheet make all three list routes
answer 200 with an empty data array. -/
theorem spec_C10_empty_sheet (rows : List (List String)) (dept : String)
    (h : rows.length ≤ 1) :
    listDepartmentsHandler rows = (200, []) ∧
    listStudentsHandler rows = (200, []) ∧
    listStudentsByDeptHandler rows dept = (200, []) := by
  rcases rows with _ | ⟨hdr, _ | ⟨r, t⟩⟩
  · exact ⟨rfl, rfl, rfl⟩
  · exact ⟨rfl, rfl, rfl⟩
  · simp at h

/-- Witness for spec_C10_empty_sheet at a header-only sheet. -/
theorem spec_C10_witness :
    listDepartmentsHandler [["ID", "Name"]] = (200, []) ∧
    listStudentsHandler [["ID", "Name"]] = (200, []) ∧
    listStudentsByDeptHandler [["ID", "Name"]] "D1" = (200, []) :=
  spec_C10_empty_sheet [["ID", "Name"]] "D1" (by decide)

/-- C7: a request that misses a required field, or the required photo,
answers 400 with an empty effect trace: no upload, no sheet read and no
append is issued, for the start-trip route and the register route alike. -/
theorem spec_C7_validation (startingKm tripId : Option String) (filePresent : Bool)
    (drv drv2 : Option DriveFile) (now now2 : String)
    (fileName description originatingDepartment createdBy : Option String)
    (fileId : String) :
    ((falsy startingKm || falsy tripId || !filePresent) = true →
      startTrip startingKm tripId filePresent drv now = (400, [])) ∧
    ((falsy fileName || falsy originatingDepartment || falsy createdBy) = true →
      registerFile fileName description originatingDepartment createdBy fileId drv2 now2 =
        (400, [])) := by
  constructor
  · intro h
    cases hks : falsy startingKm <;> cases hti : falsy tripId <;>
      cases filePresent <;> simp_all [startTrip]
  · intro h
    cases hfn : falsy fileName <;> cases hod : falsy originatingDepartment <;>
      cases hcb : falsy createdBy <;> simp_all [registerFile]

/-- Witness for spec_C7_validation: start-trip with no starting kilometres
and register with no originating department both answer 400, no effects. -/
theorem spec_C7_witness :
    startTrip none (some "t1") true none "x" = (400, []) ∧
    registerFile (some "f") none none (some "c") "id0" none "t" = (400, []) := by
  have h := spec_C7_validation none (some "t1") true none none "x" "t"
    (some "f") none none (some "c") "id0"
  exact ⟨h.1 (by decide), h.2 (by decide)⟩

/-- C8: with all required fields present, forward and receive each answer
200 and issue exactly one append of a Movements row.  Neither handler takes
the Files sheet as an input at all, so the result is the same whether or
not the fileId occurs there: an unknown fileId silently succeeds. -/
theorem spec_C8_forward_receive
    (fileId fromDepartment toDepartment forwardedBy workDone workToBeDone remarks
      receivingDepartment receivedBy remarks2 : Option String) (now : String)
    (h1 : falsy fileId = false) (h2 : falsy fromDepartment = false)
    (h3 : falsy toDepartment = false) (h4 : falsy forwardedBy = false)
    (h5 : falsy receivingDepartment = false) (h6 : falsy receivedBy = false) :
    forwardFile fileId fromDepartment toDepartment forwardedBy workDone workToBeDone
        remarks now =
      (200, [Effect.append (forwardMovementCells now fileId fromDepartment toDepartment
        forwardedBy workDone workToBeDone remarks)]) ∧
    receiveFile fileId receivingDepartment receivedBy remarks2 now =
      (200, [Effect.append (receiveMovementCells now fileId receivingDepartment
        receivedBy remarks2)]) := by
  constructor
  · simp [forwardFile, h1, h2, h3, h4]
  · simp [receiveFile, h1, h5, h6]

/-- Witness for spec_C8_forward_receive: forwarding and receiving a fileId
that exists in no Files sheet still appends one row and answers 200. -/
theorem spec_C8_witness :
    forwardFile (some "ghost") (some "D1") (some "D2") (some "u") none none none "t" =
      (200, [Effect.append (forwardMovementCells "t" (some "ghost") (some "D1")
        (some "D2") (some "u") none none none)]) ∧
    receiveFile (some "ghost") (some "D2") (some "v") none "t" =
      (200, [Effect.append (receiveMovementCells "t" (some "ghost") (some "D2")
        (some "v") none)]) :=
  spec_C8_forward_receive (some "ghost") (some "D1") (some "D2") (some "u") none none none
    (some "D2") (some "v") none "t" (by decide) (by decide) (by decide) (by decide)
    (by decide) (by decide)

/-- C9: when the drive upload fails (the upload helper returns null), the
start-trip and start-run handlers answer 500 with the upload as the only
issued effect, so no row is appended; and any append a start-trip run ever
issues requires a successful upload result. -/
theorem spec_C9_upload_failure
    (startingKm tripId startingFuelLevel runId : Option String) (now : String)
    (h1 : falsy startingKm = false) (h2 : falsy tripId = false)
    (h3 : falsy startingFuelLevel = false) (h4 : falsy runId = false) :
    startTrip startingKm tripId true none now = (500, [Effect.upload]) ∧
    startRun startingFuelLevel runId true none now = (500, [Effect.upload]) ∧
    (∀ (drv : Option DriveFile) (cells : List (Option String)),
      Effect.append cells ∈ (startTrip startingKm tripId true drv now).2 →
      drv.isSome = true) := by
  refine ⟨?_, ?_, ?_⟩
  · simp [startTrip, h1, h2]
  · simp [startRun, h3, h4]
  · intro drv cells hmem
    cases drv with
    | some d => rfl
    | none =>
        exfalso
        simp [startTrip, h1, h2] at hmem

/-- Witness for spec_C9_upload_failure at concrete field values, including
one successful-upload run whose append certifies a present drive result. -/
theorem spec_C9_witness :
    startTrip (some "5") (some "t1") true none "x" = (500, [Effect.upload]) ∧
    startRun (some "9") (some "r1") true none "x" = (500, [Effect.upload]) ∧
    (some (⟨"fid", "url"⟩ : DriveFile)).isSome = true := by
  have h := spec_C9_upload_failure (some "5") (some "t1") (some "9") (some "r1") "x"
    (by decide) (by decide) (by decide) (by decide)
  refine ⟨h.1, h.2.1, ?_⟩
  exact h.2.2 (some ⟨"fid", "url"⟩)
    [some "x", some "START", some "t1", some "5", some "url"] (by decide)

/-! Helper lemma: the status route reads its summary off the last matching
row. -/

theorem statusHandler_last_match (headers : List String) (dataRows : List (List String))
    (fileId : String) (lastRow : List String)
    (h : (dataRows.filter (fun row => decide (row[1]? = some fileId))).getLast? =
      some lastRow) :
    statusHandler (headers :: dataRows) fileId =
      some ⟨jsObjGetOpt (recordOfRowOpt headers lastRow) "Action",
            jsObjGetOpt (recordOfRowOpt headers lastRow) "ToDepartment",
            jsObjGetOpt (recordOfRowOpt headers lastRow) "Timestamp",
            (dataRows.filter (fun row => decide (row[1]? = some fileId))).map
              (recordOfRowOpt headers)⟩ := by
  have hemp : dataRows.isEmpty = false := by
    cases dataRows with
    | nil => simp at h
    | cons a t => rfl
  simp only [statusHandler, hemp, Bool.false_eq_true, if_false]
  rw [List.getLast?_map, h]
  rfl

/-- C4: the status route keeps exactly the Movements data rows whose second
cell equals the fileId; it answers 404 (none) when no row matches (in
particular on an empty or header-only sheet); when rows match, the history
is the matching rows in table order and the summary is read off the last
matching row; and after register, forward, receive on one fileId the
history has the three rows in call order with current status RECEIVED and
current location the receiving department. -/
theorem spec_C4_status (rows : List (List String)) (headers : List String)
    (dataRows : List (List String)) (fileId fid : String) (lastRow : List String)
    (ts1 ts2 ts3 od cb fd td fb wd wtbd rm rd rb rm2 : String) :
    ((∀ r ∈ rows.drop 1, r[1]? ≠ some fileId) → statusHandler rows fileId = none) ∧
    ((dataRows.filter (fun row => decide (row[1]? = some fileId))).getLast? =
        some lastRow →
      statusHandler (headers :: dataRows) fileId =
        some ⟨jsObjGetOpt (recordOfRowOpt headers lastRow) "Action",
              jsObjGetOpt (recordOfRowOpt headers lastRow) "ToDepartment",
              jsObjGetOpt (recordOfRowOpt headers lastRow) "Timestamp",
              (dataRows.filter (fun row => decide (row[1]? = some fileId))).map
                (recordOfRowOpt headers)⟩) ∧
    (statusHandler (movementsHeader ::
        [storeRow (registerMovementCells ts1 fid (some od) (some cb)),
         storeRow (forwardMovementCells ts2 (some fid) (some fd) (some td) (some fb)
           (some wd) (some wtbd) (some rm)),
         storeRow (receiveMovementCells ts3 (some fid) (some rd) (some rb) (some rm2))])
        fid =
      some ⟨some "RECEIVED", some rd, some ts3,
        [recordOfRowOpt movementsHeader
           (storeRow (registerMovementCells ts1 fid (some od) (some cb))),
         recordOfRowOpt movementsHeader
           (storeRow (forwardMovementCells ts2 (some fid) (some fd) (some td) (some fb)
             (some wd) (some wtbd) (some rm))),
         recordOfRowOpt movementsHeader
           (storeRow (receiveMovementCells ts3 (some fid) (some rd) (some rb)
             (some rm2)))]⟩) := by
  refine ⟨?_, ?_, ?_⟩
  · intro hnone
    rcases rows with _ | ⟨hdr, dr⟩
    · rfl
    · have h' : ∀ r ∈ dr, r[1]? ≠ some fileId := by
        intro r hr
        exact hnone r (by simpa using hr)
      have hfil : dr.filter (fun row => decide (row[1]? = some fileId)) = [] := by
        rw [List.filter_eq_nil_iff]
        intro x hx
        simp [h' x hx]
      cases dr with
      | nil => rfl
      | cons a t => simp [statusHandler, hfil]
  · intro h
    exact statusHandler_last_match headers dataRows fileId lastRow h
  · have hfil :
        [storeRow (registerMovementCells ts1 fid (some od) (some cb)),
         storeRow (forwardMovementCells ts2 (some fid) (some fd) (some td) (some fb)
           (some wd) (some wtbd) (some rm)),
         storeRow (receiveMovementCells ts3 (some fid) (some rd) (some rb)
           (some rm2))].filter (fun row => decide (row[1]? = some fid)) =
        [storeRow (registerMovementCells ts1 fid (some od) (some cb)),
         storeRow (forwardMovementCells ts2 (some fid) (some fd) (some td) (some fb)
           (some wd) (some wtbd) (some rm)),
         storeRow (receiveMovementCells ts3 (some fid) (some rd) (some rb)
           (some rm2))] := by
      simp [List.filter_cons, storeRow, registerMovementCells, forwardMovementCells,
        receiveMovementCells]
    have h := statusHandler_last_match movementsHeader
      [storeRow (registerMovementCells ts1 fid (some od) (some cb)),
       storeRow (forwardMovementCells ts2 (some fid) (some fd) (some td) (some fb)
         (some wd) (some wtbd) (some rm)),
       storeRow (receiveMovementCells ts3 (some fid) (some rd) (some rb) (some rm2))]
      fid
      (storeRow (receiveMovementCells ts3 (some fid) (some rd) (some rb) (some rm2)))
      (by rw [hfil]; rfl)
    rw [h, hfil]
    rfl

/-- Witness for spec_C4_status: an unmatched fileId answers none, and a
one-row history is summarized from that row. -/
theorem spec_C4_witness :
    statusHandler [["x"], ["r", "g"]] "f" = none ∧
    statusHandler [["Timestamp", "FileID", "Action"], ["t1", "f", "GO"]] "f" =
      some ⟨jsObjGetOpt (recordOfRowOpt ["Timestamp", "FileID", "Action"]
              ["t1", "f", "GO"]) "Action",
            jsObjGetOpt (recordOfRowOpt ["Timestamp", "FileID", "Action"]
              ["t1", "f", "GO"]) "ToDepartment",
            jsObjGetOpt (recordOfRowOpt ["Timestamp", "FileID", "Action"]
              ["t1", "f", "GO"]) "Timestamp",
            [recordOfRowOpt ["Timestamp", "FileID", "Action"] ["t1", "f", "GO"]]⟩ := by
  have h := spec_C4_status [["x"], ["r", "g"]] ["Timestamp", "FileID", "Action"]
    [["t1", "f", "GO"]] "f" "z" ["t1", "f", "GO"] "a" "a" "a" "a" "a" "a" "a" "a" "a"
    "a" "a" "a" "a" "a"
  refine ⟨h.1 (by decide), ?_⟩
  exact h.2.1 (by rfl)

/-! Helper lemmas relating the raw-cell filter of the filtered student list
to field lookup on the materialized records. -/

theorem objGetFromStr_no_key (k : String) :
    ∀ (ps : List (String × String)) (acc : Option String),
      (∀ p ∈ ps, p.1 ≠ k) → objGetFromStr acc ps k = acc := by
  intro ps
  induction ps with
  | nil => intro acc _; rfl
  | cons q t ih =>
      intro acc hno
      rw [objGetFromStr, List.foldl_cons]
      have hq : q.1 ≠ k := hno q (List.mem_cons_self q t)
      rw [if_neg hq]
      exact ih acc fun p hp => hno p (List.mem_cons_of_mem q hp)

theorem jsIndexOfFrom_not_mem (k : String) :
    ∀ (hs : List String) (i : Nat), k ∉ hs → jsIndexOfFrom k hs i = -1 := by
  intro hs
  induction hs with
  | nil => intro i _; rfl
  | cons h t ih =>
      intro i hno
      have hh : h ≠ k := fun he => hno (he ▸ List.mem_cons_self h t)
      rw [jsIndexOfFrom, if_neg hh]
      exact ih (i + 1) fun hm => hno (List.mem_cons_of_mem h hm)

theorem recordFilledAux_lookup_not_mem (k : String) (row : List String)
    (hs : List String) (i : Nat) (h : k ∉ hs) :
    jsObjGetStr (recordFilledAux row hs i) k = none := by
  apply objGetFromStr_no_key
  intro p hp
  have hkey : p.1 ∈ (recordFilledAux row hs i).map Prod.fst :=
    List.mem_map_of_mem Prod.fst hp
  rw [recordFilledAux_keys row hs i] at hkey
  exact fun he => h (he ▸ hkey)

theorem recordFilled_lookup_unique (k : String) :
    ∀ (hs : List String) (i : Nat), hs.count k ≤ 1 → k ∈ hs →
      ∃ j : Nat, jsIndexOfFrom k hs i = ((i + j : Nat) : Int) ∧
        ∀ row : List String,
          jsObjGetStr (recordFilledAux row hs i) k = some ((row[i + j]?).getD "") := by
  intro hs
  induction hs with
  | nil => intro i _ hmem; simp at hmem
  | cons h t ih =>
      intro i hcount hmem
      by_cases hk : h = k
      · subst hk
        have hnot : h ∉ t := by
          rw [List.count_cons_self] at hcount
          exact List.count_eq_zero.mp (by omega)
        refine ⟨0, by simp [jsIndexOfFrom], ?_⟩
        intro row
        have hstep : jsObjGetStr (recordFilledAux row (h :: t) i) h =
            objGetFromStr (some ((row[i]?).getD "")) (recordFilledAux row t (i + 1)) h := by
          simp [jsObjGetStr, objGetFromStr, recordFilledAux]
        rw [hstep, objGetFromStr_no_key h _ _ ?keys]
        · simp
        case keys =>
          intro p hp
          have hkey : p.1 ∈ (recordFilledAux row t (i + 1)).map Prod.fst :=
            List.mem_map_of_mem Prod.fst hp
          rw [recordFilledAux_keys row t (i + 1)] at hkey
          exact fun he => hnot (he ▸ hkey)
      · have hmem' : k ∈ t := by
          rcases List.mem_cons.mp hmem with he | h'
          · exact absurd he.symm hk
          · exact h'
        have hcount' : t.count k ≤ 1 := by
          rw [List.count_cons] at hcount
          omega
        obtain ⟨j, hidx, hlook⟩ := ih (i + 1) hcount' hmem'
        refine ⟨j + 1, ?_, ?_⟩
        · rw [jsIndexOfFrom, if_neg hk, hidx]
          omega
        · intro row
          have hstep : jsObjGetStr (recordFilledAux row (h :: t) i) k =
              jsObjGetStr (recordFilledAux row t (i + 1)) k := by
            simp [jsObjGetStr, objGetFromStr, recordFilledAux, hk]
          rw [hstep, hlook row]
          have harith : i + 1 + j = i + (j + 1) := by omega
          rw [harith]

theorem getD_empty_eq_some (o : Option String) (v : String) (hv : v ≠ "") :
    (o.getD "" = v) ↔ o = some v := by
  cases o with
  | none => simp [Ne.symm hv]
  | some s => simp

theorem map_filter_swap {α β : Type} (f : α → β) (p : β → Bool) :
    ∀ l : List α, (l.map f).filter p = (l.filter (fun x => p (f x))).map f := by
  intro l
  induction l with
  | nil => rfl
  | cons a t ih =>
      by_cases hpa : p (f a) = true
      · simp [List.filter_cons, hpa, ih]
      · simp [List.filter_cons, Bool.eq_false_iff.mpr hpa, ih]

/-- C5 counterexample: filtering the student list by the empty string is
not the record-level filter of list-all.  With a data row lacking a cell in
the DepartmentID column, the route's raw-cell comparison drops the row
(undefined is not strictly equal to the empty string) while the
materialized record carries the empty string in that field, so the
record-level filter of list-all keeps it. -/
theorem spec_C5_counterexample :
    (listStudentsByDeptHandler [["StudentID", "Name", "DepartmentID"], ["s1", "Bob"]]
        "").2 = [] ∧
    (listStudentsHandler [["StudentID", "Name", "DepartmentID"], ["s1", "Bob"]]).2.filter
        (fun rec => decide (jsObjGetStr rec "DepartmentID" = some "")) =
      [[("StudentID", "s1"), ("Name", "Bob"), ("DepartmentID", "")]] := by
  constructor
  · decide
  · decide

/-- C5 amended: the filtered student list equals the record-level filter of
the student list-all (same records, original order) provided the filter
value is non-empty and the header names DepartmentID at most once.  For an
empty filter value the two sides differ on rows lacking a cell in the
DepartmentID column, and a duplicated DepartmentID header would make the
raw-cell comparison read the first occurrence while the record keeps the
last. -/
theorem spec_C5_filtered_list (headers : List String) (dataRows : List (List String))
    (v : String) (hv : v ≠ "") (hcount : headers.count "DepartmentID" ≤ 1) :
    (listStudentsByDeptHandler (headers :: dataRows) v).2 =
      (listStudentsHandler (headers :: dataRows)).2.filter
        (fun rec => decide (jsObjGetStr rec "DepartmentID" = some v)) := by
  cases dataRows with
  | nil => rfl
  | cons a t =>
      have hR : (listStudentsHandler (headers :: a :: t)).2 =
          (a :: t).map (recordOfRowFilled headers) := by
        simp only [listStudentsHandler, List.isEmpty_cons, Bool.false_eq_true, if_false]
      by_cases hmem : "DepartmentID" ∈ headers
      · obtain ⟨j, hidx, hlook⟩ :=
          recordFilled_lookup_unique "DepartmentID" headers 0 hcount hmem
        have hz : (0 : Nat) + j = j := by omega
        rw [hz] at hidx
        have hL : (listStudentsByDeptHandler (headers :: a :: t) v).2 =
            ((a :: t).filter (fun row => decide (row[j]? = some v))).map
              (recordOfRowFilled headers) := by
          simp only [listStudentsByDeptHandler, List.isEmpty_cons, Bool.false_eq_true,
            if_false, jsIndexOf, hidx]
          rw [if_neg (show ¬((j : Nat) : Int) = -1 from by omega)]
          rw [Int.toNat_natCast]
        rw [hL, hR, map_filter_swap]
        apply congrArg
        apply List.filter_congr
        intro row _
        have hrec : jsObjGetStr (recordOfRowFilled headers row) "DepartmentID" =
            some ((row[j]?).getD "") := by
          have := hlook row
          rw [hz] at this
          exact this
        apply decide_eq_decide.mpr
        rw [hrec, Option.some.injEq]
        exact (getD_empty_eq_some (row[j]?) v hv).symm
      · have hidx : jsIndexOf headers "DepartmentID" = -1 :=
          jsIndexOfFrom_not_mem "DepartmentID" headers 0 hmem
        have hL : (listStudentsByDeptHandler (headers :: a :: t) v).2 = [] := by
          simp only [listStudentsByDeptHandler, List.isEmpty_cons, Bool.false_eq_true,
            if_false, hidx]
          rw [if_pos trivial]
        rw [hL, hR]
        symm
        rw [List.filter_eq_nil_iff]
        intro rec hrec
        rcases List.mem_map.mp hrec with ⟨row, _, hrow⟩
        rw [← hrow]
        simp [recordOfRowFilled,
          recordFilledAux_lookup_not_mem "DepartmentID" row headers 0 hmem]

/-- Witness for spec_C5_filtered_list: a two-row student sheet filtered by
the department D1 keeps exactly the matching record. -/
theorem spec_C5_witness :
    (listStudentsByDeptHandler
        [["StudentID", "DepartmentID"], ["s1", "D1"], ["s2", "D2"]] "D1").2 =
      (listStudentsHandler
        [["StudentID", "DepartmentID"], ["s1", "D1"], ["s2", "D2"]]).2.filter
        (fun rec => decide (jsObjGetStr rec "DepartmentID" = some "D1")) :=
  spec_C5_filtered_list ["StudentID", "DepartmentID"] [["s1", "D1"], ["s2", "D2"]]
    "D1" (by decide) (by decide)

end SheetsApi
